import Mathlib

/-!
Verification development for `src/x11_clipboard_monitor.rs` of the
`clipboard_monitor` repository.

The Rust module talks to an X11 server through the `x11rb` library.  We embed
it shallowly: the replies the server may deliver during one call are collected
in an explicit environment (`World` for `next_clipboard_string`, `BootWorld`
for `new`), and the embedded functions return, besides the Rust function's
result, the ordered list of protocol requests the call issued, so that
"issues no conversion request" or "the full-length read is never issued" are
statements about that trace.  Machine integers (atoms, window ids, timestamps,
bytes) are modelled as `Nat`; no arithmetic in the source can overflow them.
Transport-level failures of individual round trips inside
`next_clipboard_string` (a broken socket) are not modelled where the source
merely propagates them with `?`; the one reply failure the source handles
specially — `get_selection_owner`'s, which it maps to `SelectionOrphaned` —
is modelled explicitly by `World.ownerReplyOk`.
-/

namespace ClipboardMonitor

/-- An X11 atom: a protocol-assigned numeric identifier (model of `x11rb`'s
`Atom`, a 32-bit id). -/
abbrev Atom := Nat

/-- The four interned atoms held by the monitor (the `Atoms` struct in the
source). -/
structure Atoms where
  clipboard : Atom
  utf8_string : Atom
  receiver_property : Atom
  incr : Atom
deriving DecidableEq, Repr

/-- The session object (the `X11ClipboardMonitor` struct): the hidden receiver
window's id and the resolved atoms.  The connection itself is the environment
(`World`) a call runs against. -/
structure X11ClipboardMonitor where
  receiver_window : Nat
  atoms : Atoms
deriving DecidableEq, Repr

/-- The events `wait_for_event` can deliver, as far as the source
distinguishes them: the two event kinds the code matches on, and an opaque
tag for every other kind of protocol event (the `_ => ()` arms). -/
inductive X11Event where
  | xfixesSelectionNotify (selection : Atom) (timestamp : Nat)
  | selectionNotify (property : Atom)
  | other (tag : Nat)
deriving DecidableEq, Repr

/-- The error enum `X11ClipboardMonitorError` of the source. -/
inductive X11ClipboardMonitorError where
  | ConversionFailed
  | IncrUnsupported
  | SelectionOrphaned
deriving DecidableEq, Repr

/-- The dynamic error box `Box<dyn std::error::Error>` that
`next_clipboard_string` returns, restricted to the errors the function can
actually put in it: one of the three `X11ClipboardMonitorError` variants, or
the `std::str::Utf8Error` propagated by `str::from_utf8(..)?`.  Distinct
constructors model distinct Rust types, which a caller can tell apart by
downcasting. -/
inductive BoxedError where
  | monitor (e : X11ClipboardMonitorError)
  | utf8Error
deriving DecidableEq, Repr

/-- Outcome of one call to `next_clipboard_string`: the decoded text (as its
list of Unicode code points), an error, or no return at all because a
blocking `wait_for_event` loop never found its event (the call hangs). -/
inductive MonitorOutcome where
  | ok (text : List Nat)
  | err (e : BoxedError)
  | blocked
deriving DecidableEq, Repr

/-- A protocol request issued by `next_clipboard_string`, recorded with the
arguments the source passes. -/
inductive Request where
  | convertSelection (requestor : Nat) (selection : Atom) (target : Atom)
      (property : Atom) (time : Nat)
  | getProperty (delete : Bool) (window : Nat) (property : Atom)
      (longOffset : Nat) (longLength : Nat)
deriving DecidableEq, Repr

/-- Recognizer for `GetProperty` requests in a trace. -/
def Request.isGetProperty : Request → Bool
  | Request.getProperty _ _ _ _ _ => true
  | _ => false

/-- Recognizer for `ConvertSelection` requests in a trace. -/
def Request.isConvertSelection : Request → Bool
  | Request.convertSelection _ _ _ _ _ => true
  | _ => false

/-- The environment one call to `next_clipboard_string` runs against: the
queue of events the connection will deliver, the outcome of the
`get_selection_owner` round trip, and the declared type and byte content of
the reply property on the receiver window at read time.

X11's `GetSelectionOwner` request succeeds even when the selection has no
owner: the reply then carries `owner = NONE`.  `ownerReplyOk` is whether the
round trip itself succeeds (it fails only at the connection level; the
source maps that failure to `SelectionOrphaned`); `selectionOwner` is the
`owner` field of the successful reply, `atomNone` when the selection is
ownerless.  The source checks the reply only for failure and discards its
value, so the embedded function never reads `selectionOwner`. -/
structure World where
  events : List X11Event
  ownerReplyOk : Bool
  selectionOwner : Atom
  propertyType : Atom
  propertyBytes : List Nat
deriving DecidableEq, Repr

/-- Reply to a `GetProperty` request, as the source uses it: the property's
declared type, the number of bytes remaining after the returned part, and the
returned value bytes. -/
structure GetPropertyReply where
  type_ : Atom
  bytesAfter : Nat
  value : List Nat
deriving DecidableEq, Repr

/-- X11 `GetProperty` semantics for the reply property: `long_offset` and
`long_length` are in 32-bit (4-byte) units; the returned value is the window
of the property data they select, and `bytes_after` counts the bytes past the
returned part.  In particular a zero-length probe returns no data and reports
the property's full byte length in `bytes_after`. -/
def getPropertyReply (w : World) (longOffset longLength : Nat) : GetPropertyReply :=
  let rest := w.propertyBytes.drop (4 * longOffset)
  let value := rest.take (4 * longLength)
  { type_ := w.propertyType
    bytesAfter := rest.length - value.length
    value := value }

/-- The first `loop`/`wait_for_event` of `next_clipboard_string`: discard
events until an `Event::XfixesSelectionNotify` arrives, returning its
`selection` and `timestamp` fields and the undelivered remainder of the
queue; `none` models the loop blocking forever because no such event is ever
delivered. -/
def waitForXfixesNotify :
    List X11Event → Option ((Atom × Nat) × List X11Event)
  | [] => none
  | X11Event.xfixesSelectionNotify sel time :: es => some ((sel, time), es)
  | X11Event.selectionNotify _ :: es => waitForXfixesNotify es
  | X11Event.other _ :: es => waitForXfixesNotify es

/-- The second `loop`/`wait_for_event`: discard events until an
`Event::SelectionNotify` arrives, returning its `property` field and the
undelivered remainder. -/
def waitForSelNotify : List X11Event → Option (Atom × List X11Event)
  | [] => none
  | X11Event.selectionNotify p :: es => some (p, es)
  | X11Event.xfixesSelectionNotify _ _ :: es => waitForSelNotify es
  | X11Event.other _ :: es => waitForSelNotify es

/-- The atom value of `AtomEnum::NONE` (the "no property" sentinel). -/
def atomNone : Atom := 0

/-- A UTF-8 continuation byte: `0x80 ..= 0xBF`. -/
def isCont (b : Nat) : Bool := 0x80 ≤ b && b ≤ 0xBF

/-- Admissible second byte of a three-byte UTF-8 sequence, given its first
byte: `0xE0` requires `0xA0 ..= 0xBF` (no overlong forms), `0xED` requires
`0x80 ..= 0x9F` (no surrogates), the rest require a plain continuation
byte. -/
def validSecondOf3 (b0 b1 : Nat) : Bool :=
  if b0 = 0xE0 then 0xA0 ≤ b1 && b1 ≤ 0xBF
  else if b0 = 0xED then 0x80 ≤ b1 && b1 ≤ 0x9F
  else isCont b1

/-- Admissible second byte of a four-byte UTF-8 sequence, given its first
byte: `0xF0` requires `0x90 ..= 0xBF` (no overlong forms), `0xF4` requires
`0x80 ..= 0x8F` (code points at most `0x10FFFF`), the rest require a plain
continuation byte. -/
def validSecondOf4 (b0 b1 : Nat) : Bool :=
  if b0 = 0xF0 then 0x90 ≤ b1 && b1 ≤ 0xBF
  else if b0 = 0xF4 then 0x80 ≤ b1 && b1 ≤ 0x8F
  else isCont b1

/-- One step of UTF-8 decoding (embedding of one iteration of
`std::str::from_utf8`'s validator): given the first byte and the remaining
bytes, either the decoded code point and the bytes after its sequence, or
`none` when the input starts with an ill-formed sequence (stray continuation
byte, truncated sequence, overlong form, surrogate, or code point above
`0x10FFFF`) — exactly the prefixes Rust's validator rejects. -/
def utf8DecodeOne (b0 : Nat) (bs : List Nat) : Option (Nat × List Nat) :=
  if b0 < 0x80 then some (b0, bs)
  else if 0xC2 ≤ b0 && b0 ≤ 0xDF then
    match bs with
    | b1 :: bs2 =>
      if isCont b1 then some ((b0 - 0xC0) * 64 + (b1 - 0x80), bs2) else none
    | [] => none
  else if 0xE0 ≤ b0 && b0 ≤ 0xEF then
    match bs with
    | b1 :: b2 :: bs2 =>
      if validSecondOf3 b0 b1 && isCont b2 then
        some ((b0 - 0xE0) * 4096 + (b1 - 0x80) * 64 + (b2 - 0x80), bs2)
      else none
    | _ => none
  else if 0xF0 ≤ b0 && b0 ≤ 0xF4 then
    match bs with
    | b1 :: b2 :: b3 :: bs2 =>
      if validSecondOf4 b0 b1 && isCont b2 && isCont b3 then
        some ((b0 - 0xF0) * 262144 + (b1 - 0x80) * 4096 +
          (b2 - 0x80) * 64 + (b3 - 0x80), bs2)
      else none
    | _ => none
  else none

/-- Embedding of `std::str::from_utf8`: strict UTF-8 decoding of a byte list
into the list of Unicode code points, `none` on any ill-formed input. -/
def utf8Decode : List Nat → Option (List Nat)
  | [] => some []
  | b0 :: bs =>
    match h : utf8DecodeOne b0 bs with
    | none => none
    | some (c, rest) => (utf8Decode rest).map (fun cs => c :: cs)
termination_by bs => bs.length
decreasing_by
  have hlen : rest.length ≤ bs.length := by
    unfold utf8DecodeOne at h
    repeat' split at h
    all_goals simp_all
    all_goals omega
  simp only [List.length_cons]
  omega

/-- UTF-8 encoding of one code point (standard four-range encoder; inputs are
the code points `utf8Decode` produces, all at most `0x10FFFF`). -/
def utf8EncodeChar (c : Nat) : List Nat :=
  if c < 0x80 then [c]
  else if c < 0x800 then [0xC0 + c / 64, 0x80 + c % 64]
  else if c < 0x10000 then
    [0xE0 + c / 4096, 0x80 + c / 64 % 64, 0x80 + c % 64]
  else
    [0xF0 + c / 262144, 0x80 + c / 4096 % 64, 0x80 + c / 64 % 64,
      0x80 + c % 64]

/-- UTF-8 encoding of a list of code points. -/
def utf8Encode : List Nat → List Nat
  | [] => []
  | c :: cs => utf8EncodeChar c ++ utf8Encode cs

/-- Embedding of `X11ClipboardMonitor::next_clipboard_string`.  Returns the
call's outcome together with the ordered trace of `ConvertSelection` and
`GetProperty` requests it issued.  Step for step:
wait for an `XfixesSelectionNotify`; query the selection owner — only a
failed reply becomes `SelectionOrphaned` (before any conversion request
exists); the owner value a successful reply carries is discarded unread;
issue `convert_selection(receiver_window, event.selection, utf8_string,
receiver_property, event.timestamp)`; wait for a `SelectionNotify`, failing
with `ConversionFailed` when its property is `NONE`; probe the reply property
with a zero-length `get_property`; fail with `IncrUnsupported` when the
probed type is the `INCR` atom; otherwise read the property with
`long_length := probe.bytes_after` and decode the bytes as UTF-8. -/
def next_clipboard_string (m : X11ClipboardMonitor) (w : World) :
    MonitorOutcome × List Request :=
  match waitForXfixesNotify w.events with
  | none => (MonitorOutcome.blocked, [])
  | some ((sel, time), rest) =>
    if w.ownerReplyOk then
      let convReq := Request.convertSelection m.receiver_window sel
        m.atoms.utf8_string m.atoms.receiver_property time
      match waitForSelNotify rest with
      | none => (MonitorOutcome.blocked, [convReq])
      | some (prop, _) =>
        if prop = atomNone then
          (MonitorOutcome.err
            (BoxedError.monitor X11ClipboardMonitorError.ConversionFailed),
           [convReq])
        else
          let probeReq := Request.getProperty false m.receiver_window
            m.atoms.receiver_property 0 0
          let probe := getPropertyReply w 0 0
          if probe.type_ = m.atoms.incr then
            (MonitorOutcome.err
              (BoxedError.monitor X11ClipboardMonitorError.IncrUnsupported),
             [convReq, probeReq])
          else
            let readReq := Request.getProperty false m.receiver_window
              m.atoms.receiver_property 0 probe.bytesAfter
            match utf8Decode (getPropertyReply w 0 probe.bytesAfter).value with
            | some cs => (MonitorOutcome.ok cs, [convReq, probeReq, readReq])
            | none =>
              (MonitorOutcome.err BoxedError.utf8Error,
               [convReq, probeReq, readReq])
    else
      (MonitorOutcome.err
        (BoxedError.monitor X11ClipboardMonitorError.SelectionOrphaned), [])

/-- The environment `X11ClipboardMonitor::new` runs against: the outcome of
each fallible setup step, in the order the source performs them.
`connectOk = false` models `x11rb::connect(None)` returning `Err`;
`generateIdResult` is the id `generate_id()?` hands out (or its failure);
each `...Atom` field is the atom an `intern_atom(..)?.reply()?` round trip
resolves (or its failure); the remaining flags are the success of
`create_window(..)?`, `xfixes_query_version(..)?.reply()?`,
`xfixes_select_selection_input(..)?.check()?` and `flush()?`. -/
structure BootWorld where
  connectOk : Bool
  generateIdResult : Option Nat
  createWindowOk : Bool
  clipboardAtom : Option Atom
  utf8StringAtom : Option Atom
  receiverPropertyAtom : Option Atom
  incrAtom : Option Atom
  xfixesQueryVersionOk : Bool
  selectSelectionInputOk : Bool
  flushOk : Bool
deriving DecidableEq, Repr

/-- Outcome of `X11ClipboardMonitor::new`: a constructed session, a
construction error returned as `Err(..)`, or a panic (the function neither
returns a value nor an error). -/
inductive NewOutcome where
  | ok (m : X11ClipboardMonitor)
  | constructionError
  | panicked
deriving DecidableEq, Repr

/-- Embedding of `X11ClipboardMonitor::new`.  Note the first step: the source
runs `x11rb::connect(None).unwrap()`, so a failed connection panics instead
of being returned as an error; every later fallible step uses `?` and turns
into `NewOutcome.constructionError`.  On success the returned session holds
the generated window id and the four resolved atoms. -/
def new (bw : BootWorld) : NewOutcome :=
  if bw.connectOk then
    match bw.generateIdResult with
    | none => NewOutcome.constructionError
    | some wid =>
      if bw.createWindowOk then
        match bw.clipboardAtom, bw.utf8StringAtom,
            bw.receiverPropertyAtom, bw.incrAtom with
        | some c, some u, some r, some i =>
          if bw.xfixesQueryVersionOk then
            if bw.selectSelectionInputOk then
              if bw.flushOk then
                NewOutcome.ok
                  { receiver_window := wid
                    atoms :=
                      { clipboard := c, utf8_string := u
                        receiver_property := r, incr := i } }
              else NewOutcome.constructionError
            else NewOutcome.constructionError
          else NewOutcome.constructionError
        | _, _, _, _ => NewOutcome.constructionError
      else NewOutcome.constructionError
  else NewOutcome.panicked

/-- Recognizer for `Event::XfixesSelectionNotify`. -/
def X11Event.isXfixesNotify : X11Event → Bool
  | X11Event.xfixesSelectionNotify _ _ => true
  | _ => false

/-- Recognizer for `Event::SelectionNotify`. -/
def X11Event.isSelNotify : X11Event → Bool
  | X11Event.selectionNotify _ => true
  | _ => false

/-- Concrete session fixture: window id 5, atoms `CLIPBOARD` = 1,
`UTF8_STRING` = 2, `CLIPBOARD_RECEIVER` = 3, `INCR` = 4. -/
def mFix : X11ClipboardMonitor :=
  { receiver_window := 5
    atoms := { clipboard := 1, utf8_string := 2, receiver_property := 3, incr := 4 } }

/-- Concrete happy-path world: an unrelated event, the ownership change, more
noise, the conversion reply naming the receiver property; owner present;
reply property of type `UTF8_STRING` holding the bytes of `"hello"`. -/
def wHello : World :=
  { events := [X11Event.other 9, X11Event.xfixesSelectionNotify 1 100,
      X11Event.other 7, X11Event.selectionNotify 3]
    ownerReplyOk := true
    selectionOwner := 6
    propertyType := 2
    propertyBytes := [104, 101, 108, 108, 111] }

/-- Like `wHello`, but the reply property holds ill-formed UTF-8 (a stray
continuation byte). -/
def wBadUtf8 : World := { wHello with propertyBytes := [0xFF, 104] }

/-- Like `wHello`, but the reply property's declared type is the `INCR`
atom. -/
def wIncrWorld : World := { wHello with propertyType := 4 }

/-- World where the ownership change arrives and the selection has no
owner: the owner query succeeds with `owner = NONE`, and — the server
answering a conversion request addressed to an ownerless selection with a
`NONE`-property `SelectionNotify` — the conversion-reply event carries the
`NONE` sentinel. -/
def wNoOwner : World :=
  { events := [X11Event.xfixesSelectionNotify 1 100, X11Event.selectionNotify 0]
    ownerReplyOk := true
    selectionOwner := atomNone
    propertyType := 2
    propertyBytes := [] }

/-- World where the ownership change arrives but the `get_selection_owner`
round trip itself fails. -/
def wReplyFail : World :=
  { events := [X11Event.xfixesSelectionNotify 1 100]
    ownerReplyOk := false
    selectionOwner := atomNone
    propertyType := 2
    propertyBytes := [] }

/-- World where the owner is present but the conversion reply carries the
`NONE` property sentinel. -/
def wRefused : World :=
  { events := [X11Event.xfixesSelectionNotify 1 100, X11Event.selectionNotify 0]
    ownerReplyOk := true
    selectionOwner := 6
    propertyType := 2
    propertyBytes := [] }

/-- Bootstrap environment in which only the initial connection attempt
fails. -/
def bwConnectFail : BootWorld :=
  { connectOk := false
    generateIdResult := some 1
    createWindowOk := true
    clipboardAtom := some 1
    utf8StringAtom := some 2
    receiverPropertyAtom := some 3
    incrAtom := some 4
    xfixesQueryVersionOk := true
    selectSelectionInputOk := true
    flushOk := true }

/-- Encoding a code point below `0x80` yields its single byte back. -/
theorem utf8EncodeChar_one (b0 : Nat) (h : b0 < 0x80) : utf8EncodeChar b0 = [b0] := by
  unfold utf8EncodeChar
  rw [if_pos h]

/-- Encoding the code point decoded from a well-formed two-byte sequence
yields the two bytes back. -/
theorem utf8EncodeChar_two (b0 b1 : Nat) (h0 : 0xC2 ≤ b0) (h1 : b0 ≤ 0xDF)
    (h2 : 0x80 ≤ b1) (h3 : b1 ≤ 0xBF) :
    utf8EncodeChar ((b0 - 0xC0) * 64 + (b1 - 0x80)) = [b0, b1] := by
  have ha : ¬ ((b0 - 0xC0) * 64 + (b1 - 0x80) < 0x80) := by omega
  have hb : (b0 - 0xC0) * 64 + (b1 - 0x80) < 0x800 := by omega
  unfold utf8EncodeChar
  rw [if_neg ha, if_pos hb]
  simp only [List.cons.injEq, and_true]
  omega

/-- Encoding the code point decoded from a well-formed three-byte sequence
yields the three bytes back. -/
theorem utf8EncodeChar_three (b0 b1 b2 : Nat) (h0 : 0xE0 ≤ b0) (h1 : b0 ≤ 0xEF)
    (hd : 0xA0 ≤ b1 ∨ 0xE1 ≤ b0)
    (h2 : 0x80 ≤ b1) (h3 : b1 ≤ 0xBF) (h4 : 0x80 ≤ b2) (h5 : b2 ≤ 0xBF) :
    utf8EncodeChar ((b0 - 0xE0) * 4096 + (b1 - 0x80) * 64 + (b2 - 0x80)) = [b0, b1, b2] := by
  have ha : ¬ ((b0 - 0xE0) * 4096 + (b1 - 0x80) * 64 + (b2 - 0x80) < 0x80) := by omega
  have hb : ¬ ((b0 - 0xE0) * 4096 + (b1 - 0x80) * 64 + (b2 - 0x80) < 0x800) := by omega
  have hc : (b0 - 0xE0) * 4096 + (b1 - 0x80) * 64 + (b2 - 0x80) < 0x10000 := by omega
  unfold utf8EncodeChar
  rw [if_neg ha, if_neg hb, if_pos hc]
  simp only [List.cons.injEq, and_true]
  omega

/-- Encoding the code point decoded from a well-formed four-byte sequence
yields the four bytes back. -/
theorem utf8EncodeChar_four (b0 b1 b2 b3 : Nat) (h0 : 0xF0 ≤ b0) (h1 : b0 ≤ 0xF4)
    (hd : 0x90 ≤ b1 ∨ 0xF1 ≤ b0)
    (h2 : 0x80 ≤ b1) (h3 : b1 ≤ 0xBF) (h4 : 0x80 ≤ b2) (h5 : b2 ≤ 0xBF)
    (h6 : 0x80 ≤ b3) (h7 : b3 ≤ 0xBF) :
    utf8EncodeChar
      ((b0 - 0xF0) * 262144 + (b1 - 0x80) * 4096 + (b2 - 0x80) * 64 + (b3 - 0x80))
      = [b0, b1, b2, b3] := by
  have ha : ¬ ((b0 - 0xF0) * 262144 + (b1 - 0x80) * 4096 + (b2 - 0x80) * 64 + (b3 - 0x80) < 0x80) := by
    omega
  have hb : ¬ ((b0 - 0xF0) * 262144 + (b1 - 0x80) * 4096 + (b2 - 0x80) * 64 + (b3 - 0x80) < 0x800) := by
    omega
  have hc : ¬ ((b0 - 0xF0) * 262144 + (b1 - 0x80) * 4096 + (b2 - 0x80) * 64 + (b3 - 0x80) < 0x10000) := by
    omega
  unfold utf8EncodeChar
  rw [if_neg ha, if_neg hb, if_neg hc]
  simp only [List.cons.injEq, and_true]
  omega

/-- One-step round trip: re-encoding the code point produced by one
decoding step restores exactly the consumed bytes. -/
theorem utf8DecodeOne_encode (b0 : Nat) (bs : List Nat) (c : Nat)
    (rest : List Nat) (h : utf8DecodeOne b0 bs = some (c, rest)) :
    utf8EncodeChar c ++ rest = b0 :: bs := by
  unfold utf8DecodeOne at h
  by_cases ha : b0 < 0x80
  · rw [if_pos ha] at h
    injection h with h2
    rw [Prod.mk.injEq] at h2
    obtain ⟨rfl, rfl⟩ := h2
    rw [utf8EncodeChar_one b0 ha]
    rfl
  · rw [if_neg ha] at h
    by_cases hb : 0xC2 ≤ b0 && b0 ≤ 0xDF
    · rw [if_pos hb] at h
      simp only [Bool.and_eq_true, decide_eq_true_eq] at hb
      split at h
      · rename_i b1 bs2
        by_cases hc : isCont b1
        · rw [if_pos hc] at h
          simp only [isCont, Bool.and_eq_true, decide_eq_true_eq] at hc
          injection h with h2
          rw [Prod.mk.injEq] at h2
          obtain ⟨rfl, rfl⟩ := h2
          rw [utf8EncodeChar_two b0 b1 hb.1 hb.2 hc.1 hc.2]
          rfl
        · rw [if_neg hc] at h
          exact absurd h (by simp)
      · exact absurd h (by simp)
    · rw [if_neg hb] at h
      by_cases hc : 0xE0 ≤ b0 && b0 ≤ 0xEF
      · rw [if_pos hc] at h
        simp only [Bool.and_eq_true, decide_eq_true_eq] at hc
        split at h
        · rename_i b1 b2 bs2
          by_cases hv : validSecondOf3 b0 b1 && isCont b2
          · rw [if_pos hv] at h
            obtain ⟨hv3, hcont2⟩ := Bool.and_eq_true _ _ |>.mp hv
            simp only [isCont, Bool.and_eq_true, decide_eq_true_eq] at hcont2
            have hb1 : 0x80 ≤ b1 ∧ b1 ≤ 0xBF ∧ (0xA0 ≤ b1 ∨ 0xE1 ≤ b0) := by
              by_cases he : b0 = 0xE0
              · rw [validSecondOf3, if_pos he] at hv3
                simp only [Bool.and_eq_true, decide_eq_true_eq] at hv3
                exact ⟨by omega, hv3.2, Or.inl hv3.1⟩
              · have h1 : 0xE1 ≤ b0 := by omega
                by_cases hed : b0 = 0xED
                · rw [validSecondOf3, if_neg he, if_pos hed] at hv3
                  simp only [Bool.and_eq_true, decide_eq_true_eq] at hv3
                  exact ⟨hv3.1, by omega, Or.inr h1⟩
                · rw [validSecondOf3, if_neg he, if_neg hed] at hv3
                  simp only [isCont, Bool.and_eq_true, decide_eq_true_eq] at hv3
                  exact ⟨hv3.1, hv3.2, Or.inr h1⟩
            injection h with h2
            rw [Prod.mk.injEq] at h2
            obtain ⟨rfl, rfl⟩ := h2
            rw [utf8EncodeChar_three b0 b1 b2 hc.1 hc.2 hb1.2.2 hb1.1 hb1.2.1
              hcont2.1 hcont2.2]
            rfl
          · rw [if_neg hv] at h
            exact absurd h (by simp)
        · exact absurd h (by simp)
      · rw [if_neg hc] at h
        by_cases hd : 0xF0 ≤ b0 && b0 ≤ 0xF4
        · rw [if_pos hd] at h
          simp only [Bool.and_eq_true, decide_eq_true_eq] at hd
          split at h
          · rename_i b1 b2 b3 bs2
            by_cases hv : validSecondOf4 b0 b1 && isCont b2 && isCont b3
            · rw [if_pos hv] at h
              obtain ⟨hv0, hcont3⟩ := Bool.and_eq_true _ _ |>.mp hv
              obtain ⟨hv4, hcont2⟩ := Bool.and_eq_true _ _ |>.mp hv0
              simp only [isCont, Bool.and_eq_true, decide_eq_true_eq] at hcont2 hcont3
              have hb1 : 0x80 ≤ b1 ∧ b1 ≤ 0xBF ∧ (0x90 ≤ b1 ∨ 0xF1 ≤ b0) := by
                by_cases hf : b0 = 0xF0
                · rw [validSecondOf4, if_pos hf] at hv4
                  simp only [Bool.and_eq_true, decide_eq_true_eq] at hv4
                  exact ⟨by omega, hv4.2, Or.inl hv4.1⟩
                · have h1 : 0xF1 ≤ b0 := by omega
                  by_cases hf4 : b0 = 0xF4
                  · rw [validSecondOf4, if_neg hf, if_pos hf4] at hv4
                    simp only [Bool.and_eq_true, decide_eq_true_eq] at hv4
                    exact ⟨hv4.1, by omega, Or.inr h1⟩
                  · rw [validSecondOf4, if_neg hf, if_neg hf4] at hv4
                    simp only [isCont, Bool.and_eq_true, decide_eq_true_eq] at hv4
                    exact ⟨hv4.1, hv4.2, Or.inr h1⟩
              injection h with h2
              rw [Prod.mk.injEq] at h2
              obtain ⟨rfl, rfl⟩ := h2
              rw [utf8EncodeChar_four b0 b1 b2 b3 hd.1 hd.2 hb1.2.2 hb1.1 hb1.2.1
                hcont2.1 hcont2.2 hcont3.1 hcont3.2]
              rfl
            · rw [if_neg hv] at h
              exact absurd h (by simp)
          · exact absurd h (by simp)
        · rw [if_neg hd] at h
          exact absurd h (by simp)

/-- Round trip: re-encoding any successfully decoded byte list restores the
original bytes. -/
theorem utf8Encode_utf8Decode (bs : List Nat) :
    ∀ cs, utf8Decode bs = some cs → utf8Encode cs = bs := by
  induction bs using utf8Decode.induct with
  | case1 =>
      intro cs h
      rw [utf8Decode] at h
      injection h with h2
      subst h2
      rfl
  | case2 b0 bs hnone =>
      intro cs h
      rw [utf8Decode, hnone] at h
      exact absurd h (by simp)
  | case3 b0 bs c rest hsome ih =>
      intro cs h
      rw [utf8Decode, hsome] at h
      obtain ⟨cs2, hdec, rfl⟩ := Option.map_eq_some'.mp h
      show utf8EncodeChar c ++ utf8Encode cs2 = b0 :: bs
      rw [ih cs2 hdec]
      exact utf8DecodeOne_encode b0 bs c rest hsome

/-- Events that are not `XfixesSelectionNotify` are discarded by the first
wait loop: prepending them leaves its result unchanged. -/
theorem waitForXfixesNotify_append (noise es : List X11Event)
    (hn : ∀ e ∈ noise, e.isXfixesNotify = false) :
    waitForXfixesNotify (noise ++ es) = waitForXfixesNotify es := by
  induction noise with
  | nil => rfl
  | cons e noise ih =>
    cases e with
    | xfixesSelectionNotify s t =>
      exact absurd (hn _ (List.mem_cons_self _ _)) (by simp [X11Event.isXfixesNotify])
    | selectionNotify p =>
      simpa [waitForXfixesNotify] using ih (fun e he => hn e (List.mem_cons_of_mem _ he))
    | other tag =>
      simpa [waitForXfixesNotify] using ih (fun e he => hn e (List.mem_cons_of_mem _ he))

/-- Events that are not `SelectionNotify` are discarded by the second wait
loop: prepending them leaves its result unchanged. -/
theorem waitForSelNotify_append (noise es : List X11Event)
    (hn : ∀ e ∈ noise, e.isSelNotify = false) :
    waitForSelNotify (noise ++ es) = waitForSelNotify es := by
  induction noise with
  | nil => rfl
  | cons e noise ih =>
    cases e with
    | selectionNotify p =>
      exact absurd (hn _ (List.mem_cons_self _ _)) (by simp [X11Event.isSelNotify])
    | xfixesSelectionNotify s t =>
      simpa [waitForSelNotify] using ih (fun e he => hn e (List.mem_cons_of_mem _ he))
    | other tag =>
      simpa [waitForSelNotify] using ih (fun e he => hn e (List.mem_cons_of_mem _ he))

/-- Characterization of a run that reaches the final read: with the two
events found, the owner present, the reply property not `NONE` and the
probed type not `INCR`, the call issues exactly the conversion request, the
zero-length probe and the full-length read, and returns the decoding of the
reply property's bytes. -/
theorem next_clipboard_string_happy (m : X11ClipboardMonitor) (w : World)
    (sel time : Nat) (rest : List X11Event) (prop : Atom) (rest2 : List X11Event)
    (h1 : waitForXfixesNotify w.events = some ((sel, time), rest))
    (h2 : w.ownerReplyOk = true)
    (h3 : waitForSelNotify rest = some (prop, rest2))
    (h4 : prop ≠ atomNone)
    (h5 : w.propertyType ≠ m.atoms.incr) :
    next_clipboard_string m w =
      ((match utf8Decode w.propertyBytes with
        | some cs => MonitorOutcome.ok cs
        | none => MonitorOutcome.err BoxedError.utf8Error),
       [Request.convertSelection m.receiver_window sel m.atoms.utf8_string
          m.atoms.receiver_property time,
        Request.getProperty false m.receiver_window m.atoms.receiver_property 0 0,
        Request.getProperty false m.receiver_window m.atoms.receiver_property 0
          w.propertyBytes.length]) := by
  have ht : w.propertyBytes.take (4 * w.propertyBytes.length) = w.propertyBytes :=
    List.take_of_length_le (by omega)
  simp only [next_clipboard_string, h1, h2, h3, h4, getPropertyReply,
    List.drop_zero, List.take_zero, List.length_nil, Nat.sub_zero, Nat.mul_zero,
    if_true, if_false, ite_false, h5, ht]
  cases utf8Decode w.propertyBytes <;> rfl

/-- C1: for every byte sequence deposited in the reply property that is
valid UTF-8 (the decoder succeeds with `cs`), `next_clipboard_string`
returns successfully with exactly that decoding, and re-encoding the
returned text yields the original byte sequence. -/
theorem claim_C1_utf8_roundtrip (m : X11ClipboardMonitor) (w : World)
    (sel time : Nat) (rest : List X11Event) (prop : Atom) (rest2 : List X11Event)
    (cs : List Nat)
    (h1 : waitForXfixesNotify w.events = some ((sel, time), rest))
    (h2 : w.ownerReplyOk = true)
    (h3 : waitForSelNotify rest = some (prop, rest2))
    (h4 : prop ≠ atomNone)
    (h5 : w.propertyType ≠ m.atoms.incr)
    (h6 : utf8Decode w.propertyBytes = some cs) :
    (next_clipboard_string m w).1 = MonitorOutcome.ok cs ∧
      utf8Encode cs = w.propertyBytes := by
  rw [next_clipboard_string_happy m w sel time rest prop rest2 h1 h2 h3 h4 h5]
  exact ⟨by simp [h6], utf8Encode_utf8Decode w.propertyBytes cs h6⟩

/-- Witness for C1: the concrete happy-path world delivering `"hello"`. -/
theorem claim_C1_utf8_roundtrip_witness :
    (next_clipboard_string mFix wHello).1 =
        MonitorOutcome.ok [104, 101, 108, 108, 111] ∧
      utf8Encode [104, 101, 108, 108, 111] = wHello.propertyBytes :=
  claim_C1_utf8_roundtrip mFix wHello 1 100
    [X11Event.other 7, X11Event.selectionNotify 3] 3 []
    [104, 101, 108, 108, 111]
    (by decide) (by decide) (by decide) (by decide) (by decide)
    (by simp [wHello, utf8Decode, utf8DecodeOne])

/-- C2: unrelated events delivered before the ownership-change event, and
unrelated events delivered before the conversion-reply event, are discarded:
the call returns the same outcome and issues the same requests as if they
were absent. -/
theorem claim_C2_noise_insensitive (m : X11ClipboardMonitor) (w : World)
    (noise1 noise2 : List X11Event) (sel time : Nat) (rest : List X11Event)
    (hn1 : ∀ e ∈ noise1, e.isXfixesNotify = false)
    (hn2 : ∀ e ∈ noise2, e.isSelNotify = false) :
    next_clipboard_string m
      { w with events := noise1 ++ X11Event.xfixesSelectionNotify sel time ::
          (noise2 ++ rest) } =
    next_clipboard_string m
      { w with events := X11Event.xfixesSelectionNotify sel time :: rest } := by
  have e1 : waitForXfixesNotify (noise1 ++ X11Event.xfixesSelectionNotify sel time ::
      (noise2 ++ rest)) = some ((sel, time), noise2 ++ rest) := by
    rw [waitForXfixesNotify_append noise1 _ hn1]
    rfl
  have e2 : waitForSelNotify (noise2 ++ rest) = waitForSelNotify rest :=
    waitForSelNotify_append noise2 rest hn2
  simp only [next_clipboard_string, e1, e2, waitForXfixesNotify, getPropertyReply]

/-- Witness for C2: one unrelated event before each of the two awaited
events. -/
theorem claim_C2_noise_insensitive_witness :
    next_clipboard_string mFix
      { wHello with events := [X11Event.other 9] ++
          X11Event.xfixesSelectionNotify 1 100 ::
          ([X11Event.other 7] ++ [X11Event.selectionNotify 3]) } =
    next_clipboard_string mFix
      { wHello with events := X11Event.xfixesSelectionNotify 1 100 ::
          [X11Event.selectionNotify 3] } :=
  claim_C2_noise_insensitive mFix wHello [X11Event.other 9] [X11Event.other 7]
    1 100 [X11Event.selectionNotify 3] (by decide) (by decide)

/-- C3 (code bug in the source): the claim says that when the owner query
finds no owner, the call fails with `SelectionOrphaned` and issues no
conversion request.  X11's `GetSelectionOwner` succeeds with `owner = NONE`
on an ownerless selection, and the source checks the reply only for failure,
never reading its owner field; so at `wNoOwner` — the owner query succeeds
and reports no owner — the call proceeds, issues a conversion request, and
returns `ConversionFailed` (the server answers the conversion request for
an ownerless selection with a `NONE`-property `SelectionNotify`), not
`SelectionOrphaned`.  Only a failed `get_selection_owner` round trip
(`wReplyFail`) yields `SelectionOrphaned` with an empty trace. -/
theorem claim_C3_no_owner_proceeds :
    wNoOwner.ownerReplyOk = true ∧ wNoOwner.selectionOwner = atomNone ∧
    next_clipboard_string mFix wNoOwner =
      (MonitorOutcome.err
        (BoxedError.monitor X11ClipboardMonitorError.ConversionFailed),
       [Request.convertSelection 5 1 2 3 100]) ∧
    (next_clipboard_string mFix wNoOwner).2.any Request.isConvertSelection = true ∧
    (next_clipboard_string mFix wNoOwner).1 ≠
      MonitorOutcome.err
        (BoxedError.monitor X11ClipboardMonitorError.SelectionOrphaned) ∧
    next_clipboard_string mFix wReplyFail =
      (MonitorOutcome.err
        (BoxedError.monitor X11ClipboardMonitorError.SelectionOrphaned), []) := by
  decide

/-- C4: when the conversion reply carries the `NONE` property sentinel, the
call returns `ConversionFailed` and the trace holds only the conversion
request — no property read request is issued afterwards. -/
theorem claim_C4_conversion_failed (m : X11ClipboardMonitor) (w : World)
    (sel time : Nat) (rest : List X11Event) (rest2 : List X11Event)
    (h1 : waitForXfixesNotify w.events = some ((sel, time), rest))
    (h2 : w.ownerReplyOk = true)
    (h3 : waitForSelNotify rest = some (atomNone, rest2)) :
    next_clipboard_string m w =
      (MonitorOutcome.err
        (BoxedError.monitor X11ClipboardMonitorError.ConversionFailed),
       [Request.convertSelection m.receiver_window sel m.atoms.utf8_string
          m.atoms.receiver_property time]) := by
  simp [next_clipboard_string, h1, h2, h3]

/-- Witness for C4: the concrete refused-conversion world. -/
theorem claim_C4_conversion_failed_witness :
    next_clipboard_string mFix wRefused =
      (MonitorOutcome.err
        (BoxedError.monitor X11ClipboardMonitorError.ConversionFailed),
       [Request.convertSelection 5 1 2 3 100]) :=
  claim_C4_conversion_failed mFix wRefused 1 100 [X11Event.selectionNotify 0] []
    (by decide) (by decide) (by decide)

/-- C5: when the probed type of the reply property is the `INCR` atom, the
call returns `IncrUnsupported` and the trace holds only the conversion
request and the zero-length probe — the full-length read is never issued. -/
theorem claim_C5_incr_unsupported (m : X11ClipboardMonitor) (w : World)
    (sel time : Nat) (rest : List X11Event) (prop : Atom) (rest2 : List X11Event)
    (h1 : waitForXfixesNotify w.events = some ((sel, time), rest))
    (h2 : w.ownerReplyOk = true)
    (h3 : waitForSelNotify rest = some (prop, rest2))
    (h4 : prop ≠ atomNone)
    (h5 : w.propertyType = m.atoms.incr) :
    next_clipboard_string m w =
      (MonitorOutcome.err
        (BoxedError.monitor X11ClipboardMonitorError.IncrUnsupported),
       [Request.convertSelection m.receiver_window sel m.atoms.utf8_string
          m.atoms.receiver_property time,
        Request.getProperty false m.receiver_window m.atoms.receiver_property 0 0]) := by
  simp [next_clipboard_string, h1, h2, h3, h4, getPropertyReply, h5]

/-- Witness for C5: the concrete world announcing a chunked transfer. -/
theorem claim_C5_incr_unsupported_witness :
    next_clipboard_string mFix wIncrWorld =
      (MonitorOutcome.err
        (BoxedError.monitor X11ClipboardMonitorError.IncrUnsupported),
       [Request.convertSelection 5 1 2 3 100,
        Request.getProperty false 5 3 0 0]) :=
  claim_C5_incr_unsupported mFix wIncrWorld 1 100
    [X11Event.other 7, X11Event.selectionNotify 3] 3 []
    (by decide) (by decide) (by decide) (by decide) (by decide)

/-- C6: for every byte sequence deposited in the reply property that is not
valid UTF-8, the call fails with the propagated UTF-8 decode error and
returns no text; that error is a different variant of the returned error
type than each of the three protocol errors, so the caller can distinguish
them. -/
theorem claim_C6_decode_failed (m : X11ClipboardMonitor) (w : World)
    (sel time : Nat) (rest : List X11Event) (prop : Atom) (rest2 : List X11Event)
    (h1 : waitForXfixesNotify w.events = some ((sel, time), rest))
    (h2 : w.ownerReplyOk = true)
    (h3 : waitForSelNotify rest = some (prop, rest2))
    (h4 : prop ≠ atomNone)
    (h5 : w.propertyType ≠ m.atoms.incr)
    (h6 : utf8Decode w.propertyBytes = none) :
    (next_clipboard_string m w).1 = MonitorOutcome.err BoxedError.utf8Error ∧
    BoxedError.utf8Error ≠
        BoxedError.monitor X11ClipboardMonitorError.SelectionOrphaned ∧
    BoxedError.utf8Error ≠
        BoxedError.monitor X11ClipboardMonitorError.ConversionFailed ∧
    BoxedError.utf8Error ≠
        BoxedError.monitor X11ClipboardMonitorError.IncrUnsupported := by
  rw [next_clipboard_string_happy m w sel time rest prop rest2 h1 h2 h3 h4 h5]
  exact ⟨by simp [h6], by simp, by simp, by simp⟩

/-- Witness for C6: the concrete world delivering a stray continuation
byte. -/
theorem claim_C6_decode_failed_witness :
    (next_clipboard_string mFix wBadUtf8).1 =
        MonitorOutcome.err BoxedError.utf8Error ∧
    BoxedError.utf8Error ≠
        BoxedError.monitor X11ClipboardMonitorError.SelectionOrphaned ∧
    BoxedError.utf8Error ≠
        BoxedError.monitor X11ClipboardMonitorError.ConversionFailed ∧
    BoxedError.utf8Error ≠
        BoxedError.monitor X11ClipboardMonitorError.IncrUnsupported :=
  claim_C6_decode_failed mFix wBadUtf8 1 100
    [X11Event.other 7, X11Event.selectionNotify 3] 3 []
    (by decide) (by decide) (by decide) (by decide) (by decide)
    (by simp [wBadUtf8, wHello, utf8Decode, utf8DecodeOne, isCont])

/-- C7: in the non-chunked case the zero-length probe reports exactly the
byte count of the reply property, the final read request carries exactly
that count as its length argument, and the value that read hands to the
UTF-8 decoder is the complete property content — neither truncated nor
padded. -/
theorem claim_C7_full_length_read (m : X11ClipboardMonitor) (w : World)
    (sel time : Nat) (rest : List X11Event) (prop : Atom) (rest2 : List X11Event)
    (h1 : waitForXfixesNotify w.events = some ((sel, time), rest))
    (h2 : w.ownerReplyOk = true)
    (h3 : waitForSelNotify rest = some (prop, rest2))
    (h4 : prop ≠ atomNone)
    (h5 : w.propertyType ≠ m.atoms.incr) :
    (getPropertyReply w 0 0).bytesAfter = w.propertyBytes.length ∧
    (next_clipboard_string m w).2 =
      [Request.convertSelection m.receiver_window sel m.atoms.utf8_string
          m.atoms.receiver_property time,
        Request.getProperty false m.receiver_window m.atoms.receiver_property 0 0,
        Request.getProperty false m.receiver_window m.atoms.receiver_property 0
          w.propertyBytes.length] ∧
    (getPropertyReply w 0 (getPropertyReply w 0 0).bytesAfter).value =
      w.propertyBytes := by
  refine ⟨by simp [getPropertyReply], ?_, ?_⟩
  · rw [next_clipboard_string_happy m w sel time rest prop rest2 h1 h2 h3 h4 h5]
  · simp only [getPropertyReply, List.drop_zero, List.take_zero,
      List.length_nil, Nat.sub_zero, Nat.mul_zero]
    exact List.take_of_length_le (by omega)

/-- Witness for C7: the concrete happy-path world delivering `"hello"`. -/
theorem claim_C7_full_length_read_witness :
    (getPropertyReply wHello 0 0).bytesAfter = wHello.propertyBytes.length ∧
    (next_clipboard_string mFix wHello).2 =
      [Request.convertSelection 5 1 2 3 100,
        Request.getProperty false 5 3 0 0,
        Request.getProperty false 5 3 0 wHello.propertyBytes.length] ∧
    (getPropertyReply wHello 0 (getPropertyReply wHello 0 0).bytesAfter).value =
      wHello.propertyBytes :=
  claim_C7_full_length_read mFix wHello 1 100
    [X11Event.other 7, X11Event.selectionNotify 3] 3 []
    (by decide) (by decide) (by decide) (by decide) (by decide)

/-- C9: whenever a run issues any property read request, the first wait
found an ownership-change event, the second wait — run on the events still
undelivered after it — found a conversion-reply event whose property is not
`NONE`, and the trace's first request is this very call's conversion
request: every read follows a reply event freshly observed after this call
issued its conversion request. -/
theorem claim_C9_read_after_reply (m : X11ClipboardMonitor) (w : World)
    (h : ∃ r ∈ (next_clipboard_string m w).2, r.isGetProperty = true) :
    ∃ sel time rest prop rest2,
      waitForXfixesNotify w.events = some ((sel, time), rest) ∧
      waitForSelNotify rest = some (prop, rest2) ∧ prop ≠ atomNone ∧
      (next_clipboard_string m w).2.head? =
        some (Request.convertSelection m.receiver_window sel m.atoms.utf8_string
          m.atoms.receiver_property time) := by
  rcases e1 : waitForXfixesNotify w.events with _ | ⟨⟨sel, time⟩, rest⟩
  · simp [next_clipboard_string, e1] at h
  · cases e2 : w.ownerReplyOk with
    | false => simp [next_clipboard_string, e1, e2] at h
    | true =>
      rcases e3 : waitForSelNotify rest with _ | ⟨prop, rest2⟩
      · simp [next_clipboard_string, e1, e2, e3, Request.isGetProperty] at h
      · by_cases e4 : prop = atomNone
        · simp [next_clipboard_string, e1, e2, e3, e4, Request.isGetProperty] at h
        · refine ⟨sel, time, rest, prop, rest2, rfl, e3, e4, ?_⟩
          simp only [next_clipboard_string, e1, e2, e3, e4]
          by_cases e5 : (getPropertyReply w 0 0).type_ = m.atoms.incr
          · simp [next_clipboard_string, e1, e2, e3, e4, e5]
          · simp only [next_clipboard_string, e1, e2, e3, e4, e5]
            cases utf8Decode (getPropertyReply w 0
                (getPropertyReply w 0 0).bytesAfter).value <;> simp

/-- Witness for C9: the concrete happy-path world, whose trace contains two
read requests. -/
theorem claim_C9_read_after_reply_witness :
    ∃ sel time rest prop rest2,
      waitForXfixesNotify wHello.events = some ((sel, time), rest) ∧
      waitForSelNotify rest = some (prop, rest2) ∧ prop ≠ atomNone ∧
      (next_clipboard_string mFix wHello).2.head? =
        some (Request.convertSelection mFix.receiver_window sel
          mFix.atoms.utf8_string mFix.atoms.receiver_property time) :=
  claim_C9_read_after_reply mFix wHello
    ⟨Request.getProperty false 5 3 0 0,
     by simp [wHello, mFix, next_clipboard_string, waitForXfixesNotify,
       waitForSelNotify, getPropertyReply, atomNone, utf8Decode, utf8DecodeOne,
       Request.isGetProperty]⟩

/-- C10: every property read request `next_clipboard_string` ever issues —
in any environment, on every path — passes the delete flag as `false`: the
call never asks the server to delete the reply property. -/
theorem claim_C10_never_deletes (m : X11ClipboardMonitor) (w : World)
    (d : Bool) (win : Nat) (p : Atom) (off len : Nat)
    (h : Request.getProperty d win p off len ∈ (next_clipboard_string m w).2) :
    d = false := by
  rcases e1 : waitForXfixesNotify w.events with _ | ⟨⟨sel, time⟩, rest⟩
  · simp [next_clipboard_string, e1] at h
  · cases e2 : w.ownerReplyOk with
    | false => simp [next_clipboard_string, e1, e2] at h
    | true =>
      rcases e3 : waitForSelNotify rest with _ | ⟨prop, rest2⟩
      · simp [next_clipboard_string, e1, e2, e3] at h
      · by_cases e4 : prop = atomNone
        · simp [next_clipboard_string, e1, e2, e3, e4] at h
        · by_cases e5 : (getPropertyReply w 0 0).type_ = m.atoms.incr
          · simp [next_clipboard_string, e1, e2, e3, e4, e5] at h
            tauto
          · simp only [next_clipboard_string, e1, e2, e3, e4, e5] at h
            rcases e6 : utf8Decode (getPropertyReply w 0
                (getPropertyReply w 0 0).bytesAfter).value with _ | cs <;>
              rw [e6] at h <;> simp at h <;> tauto

/-- Witness for C10: the delete flag of the probe request issued in the
concrete happy-path run. -/
theorem claim_C10_never_deletes_witness : false = false :=
  claim_C10_never_deletes mFix wHello false 5 3 0 0
    (by simp [wHello, mFix, next_clipboard_string, waitForXfixesNotify,
      waitForSelNotify, getPropertyReply, atomNone, utf8Decode, utf8DecodeOne])

/-- C8 (code bug in the source): the claim says `new` returns a construction
error whenever the connection cannot be established; the source instead runs
`x11rb::connect(None).unwrap()`, so a failed connection panics rather than
returning an error.  At the concrete bootstrap environment `bwConnectFail`,
in which only the connection attempt fails, `new` panics and in particular
does not return a construction error.  Every other failure condition named
by the claim does yield a construction error, and on success the returned
session holds the generated window id and the four resolved atoms. -/
theorem claim_C8_connect_failure_panics :
    new bwConnectFail = NewOutcome.panicked ∧
    NewOutcome.panicked ≠ NewOutcome.constructionError ∧
    new { bwConnectFail with connectOk := true, generateIdResult := none } =
      NewOutcome.constructionError ∧
    new { bwConnectFail with connectOk := true, createWindowOk := false } =
      NewOutcome.constructionError ∧
    new { bwConnectFail with connectOk := true, clipboardAtom := none } =
      NewOutcome.constructionError ∧
    new { bwConnectFail with connectOk := true, utf8StringAtom := none } =
      NewOutcome.constructionError ∧
    new { bwConnectFail with connectOk := true, receiverPropertyAtom := none } =
      NewOutcome.constructionError ∧
    new { bwConnectFail with connectOk := true, incrAtom := none } =
      NewOutcome.constructionError ∧
    new { bwConnectFail with connectOk := true, xfixesQueryVersionOk := false } =
      NewOutcome.constructionError ∧
    new { bwConnectFail with connectOk := true, selectSelectionInputOk := false } =
      NewOutcome.constructionError ∧
    new { bwConnectFail with connectOk := true, flushOk := false } =
      NewOutcome.constructionError ∧
    new { bwConnectFail with connectOk := true } =
      NewOutcome.ok ⟨1, ⟨1, 2, 3, 4⟩⟩ := by
  decide

end ClipboardMonitor
